import Mathlib

/-!
Verification of the BAC estimation engine of this repository.

The engine consists of pure numeric code in two modules:
* `bac_tracker.py` — Widmark-based tracker with a per-drink absorption
  approximation (`Person`, `Drink`, `BACSession`), embedded below in the
  namespace `BacTracker`;
* `bloodalc.py` — a multi-model comparison suite (Matthews & Miller,
  Forrest, Lewis, NHTSA, plus a metric Widmark helper), embedded below in
  the namespace `BloodAlc`.

Embedding conventions:
* Python floats are modelled as rationals (`ℚ`); all source arithmetic is
  exact rational arithmetic here.
* Python `datetime` values are modelled as rationals: minutes in
  `BacTracker` (the module works in minutes and converts to hours by an
  explicit `/ 60`), hours in `BloodAlc` (the module converts a timedelta
  to hours once, in `hours_since_first_sip`).
* Python float division raises `ZeroDivisionError` when the divisor is
  exactly zero; fallible divisions are modelled with `pydiv` returning
  `Option ℚ` (`none` = the exception propagates).
* Python `str.lower()` is modelled by `pyLower` (character-wise
  lowercasing) and `str.startswith` by `pyStartsWith`.
-/

/-- Python float division: `a / b`, raising (modelled as `none`) when the
divisor is exactly zero. -/
def pydiv (a b : ℚ) : Option ℚ := if b = 0 then none else some (a / b)

/-- Python `str.lower()` (character-wise lowercasing). -/
def pyLower (s : String) : String := ⟨s.data.map Char.toLower⟩

/-- Python `str.startswith(p)`. -/
def pyStartsWith (s p : String) : Bool := p.data.isPrefixOf s.data

theorem pydiv_of_ne {b : ℚ} (a : ℚ) (h : b ≠ 0) : pydiv a b = some (a / b) := by
  simp [pydiv, h]

theorem pydiv_zero_right (a : ℚ) : pydiv a 0 = none := by
  simp [pydiv]

namespace BacTracker

/-- `ML_PER_OUNCE` from `bac_tracker.py`. -/
def ML_PER_OUNCE : ℚ := 29.5735

/-- `ALCOHOL_DENSITY_G_PER_ML` from `bac_tracker.py`. -/
def ALCOHOL_DENSITY_G_PER_ML : ℚ := 0.789

/-- `DEFAULT_BETA` from `bac_tracker.py`. -/
def DEFAULT_BETA : ℚ := 0.015

/-- `SEX_R` dict from `bac_tracker.py`; lookup by key, `none` = key absent. -/
def SEX_R (s : String) : Option ℚ :=
  if s = "male" then some 0.68 else if s = "female" then some 0.55 else none

/-- `grams_alcohol(ounces, alc_percent)` from `bac_tracker.py`. -/
def grams_alcohol (ounces alc_percent : ℚ) : ℚ :=
  ounces * ML_PER_OUNCE * (alc_percent / 100) * ALCOHOL_DENSITY_G_PER_ML

/-- `Drink` dataclass from `bac_tracker.py`; `time` is in minutes. -/
structure Drink where
  ounces : ℚ
  alc_percent : ℚ
  time : ℚ
  absorption_time_min : ℚ := 40

/-- `Drink.grams()` from `bac_tracker.py`. -/
def Drink.grams (d : Drink) : ℚ := grams_alcohol d.ounces d.alc_percent

/-- `Person` dataclass from `bac_tracker.py`. -/
structure Person where
  weight_kg : ℚ
  sex : String
  age : ℤ
  eaten : Bool := false
  custom_r : Option ℚ := none
  custom_beta : Option ℚ := none

/-- `Person.r()` from `bac_tracker.py`:
`SEX_R.get(self.sex.lower(), 0.68)` unless a custom override is set. -/
def Person.r (p : Person) : ℚ :=
  match p.custom_r with
  | some c => c
  | none => (SEX_R (pyLower p.sex)).getD 0.68

/-- `Person.beta()` from `bac_tracker.py`: base rate (custom override or
`DEFAULT_BETA`), scaled by `1 - min(0.25, 0.002*(age-30))` past age 30. -/
def Person.beta (p : Person) : ℚ :=
  let base := p.custom_beta.getD DEFAULT_BETA
  if p.age ≤ 30 then base
  else base * (1 - min 0.25 (0.002 * ((p.age : ℚ) - 30)))

/-- `BACSession.add_drink` from `bac_tracker.py`: builds the `Drink` that
gets appended to the session log (absorption window 40 min, times 1.5
when the person has eaten). -/
def add_drink (p : Person) (ounces alc_percent t : ℚ) : Drink :=
  { ounces := ounces, alc_percent := alc_percent, time := t,
    absorption_time_min := if p.eaten then 40 * 1.5 else 40 }

/-- The absorbed-fraction computation inside
`BACSession._contribution_from_drink` (lines 89–94 of `bac_tracker.py`):
zero when no time has elapsed, else `min(1, minutes_since / window)`,
where the division raises if the window is exactly zero. -/
def frac_absorbed (d : Drink) (now : ℚ) : Option ℚ :=
  let minutes_since := now - d.time
  if minutes_since ≤ 0 then some 0
  else (pydiv minutes_since d.absorption_time_min).map (fun q => min 1 q)

/-- `BACSession._contribution_from_drink` from `bac_tracker.py`. -/
def contribution_from_drink (p : Person) (d : Drink) (now : ℚ) : Option ℚ :=
  (frac_absorbed d now).bind (fun frac =>
    (pydiv (d.grams * frac) (p.weight_kg * 1000 * p.r)).map (fun q =>
      let midpoint := d.time + frac * d.absorption_time_min / 2
      let hours_since_midpoint := max 0 ((now - midpoint) / 60)
      max 0 (q * 100 - p.beta * hours_since_midpoint)))

/-- The `sum(...)` over per-drink contributions inside
`BACSession.current_bac`; the exception from any term propagates. -/
def sum_contributions (p : Person) (drinks : List Drink) (now : ℚ) : Option ℚ :=
  match drinks with
  | [] => some 0
  | d :: rest =>
      (contribution_from_drink p d now).bind (fun c =>
        (sum_contributions p rest now).map (fun s => c + s))

/-- `BACSession.current_bac` from `bac_tracker.py`. -/
def current_bac (p : Person) (drinks : List Drink) (now : ℚ) : Option ℚ :=
  (sum_contributions p drinks now).map (fun s => max 0 s)

/-- `BACSession.time_to_sober` from `bac_tracker.py`. Result in hours;
`some none` = Python `None` ("already sober"), outer `none` = an
exception propagates (`bac / beta` with `beta = 0`). -/
def time_to_sober (p : Person) (drinks : List Drink) (now : ℚ) : Option (Option ℚ) :=
  (current_bac p drinks now).bind (fun bac =>
    if bac ≤ 0 then some none
    else (pydiv bac p.beta).map (fun h => some h))

/-- Stated from the spec's words (claim C1), for comparison with the
source embedding `contribution_from_drink`: per-drink contribution
`max(0, (grams*f/(weight*1000*r))*100 - beta*max(0, hoursSinceMidpoint))`
with `f = 0` for `now ≤ t0`, else `min(1, minutesSince/W)`, and midpoint
`t0 + f*W/2` minutes. -/
def spec_contribution (p : Person) (d : Drink) (now : ℚ) : ℚ :=
  let W := d.absorption_time_min
  let f : ℚ := if now ≤ d.time then 0 else min 1 ((now - d.time) / W)
  let midpoint := d.time + f * W / 2
  max 0 (d.grams * f / (p.weight_kg * 1000 * p.r) * 100 -
    p.beta * max 0 ((now - midpoint) / 60))

/-- Stated from the spec's words (claim C1): session BAC is the clamped
sum of per-drink contributions. -/
def spec_current_bac (p : Person) (drinks : List Drink) (now : ℚ) : ℚ :=
  max 0 ((drinks.map (fun d => spec_contribution p d now)).sum)

end BacTracker

namespace BloodAlc

/-- `OZ_TO_ML` from `bloodalc.py`. -/
def OZ_TO_ML : ℚ := 29.5735295625

/-- `POUNDS_TO_KG` from `bloodalc.py`. -/
def POUNDS_TO_KG : ℚ := 0.45359237

/-- `STANDARD_DRINK_GRAMS` from `bloodalc.py`. -/
def STANDARD_DRINK_GRAMS : ℚ := 14

/-- `ALCOHOL_DENSITY` from `bloodalc.py`. -/
def ALCOHOL_DENSITY : ℚ := 0.79

/-- `Profile` dataclass from `bloodalc.py`. -/
structure Profile where
  name : String
  age : ℤ
  height_cm : ℚ
  sex : String
  weight_kg : ℚ
  eaten_recently : Bool := false

/-- `Drink` dataclass from `bloodalc.py` (catalog entry). -/
structure Drink where
  name : String
  volume_ml : ℚ
  percent_abv : ℚ

/-- `Consumed` dataclass from `bloodalc.py`; the ISO timestamp is
modelled as a rational time in hours. -/
structure Consumed where
  drink_name : String
  quantity : ℤ
  timestamp : ℚ

/-- `profile.sex.lower().startswith('f')`, the sex test used by the
model suite in `bloodalc.py`. -/
def sex_is_female (s : String) : Bool := pyStartsWith (pyLower s) "f"

/-- The dict comprehension `{d.name: d for d in drinks}` followed by
`.get(name)` in `total_alcohol_grams`: the last catalog entry with a
given name wins, `none` = unresolved. -/
def drink_lookup (drinks : List Drink) (s : String) : Option Drink :=
  drinks.foldl (fun acc d => if d.name = s then some d else acc) none

/-- `total_alcohol_grams(consumed, drinks)` from `bloodalc.py`: loop over
consumption events, silently skipping unresolved drink names. -/
def total_alcohol_grams (consumed : List Consumed) (drinks : List Drink) : ℚ :=
  consumed.foldl (fun total c =>
    match drink_lookup drinks c.drink_name with
    | none => total
    | some d => total + d.volume_ml * (d.percent_abv / 100) * ALCOHOL_DENSITY * (c.quantity : ℚ)) 0

/-- `standard_drinks_from_grams` from `bloodalc.py` (the truthiness guard
on the constant divisor is kept). -/
def standard_drinks_from_grams (grams : ℚ) : ℚ :=
  if STANDARD_DRINK_GRAMS = 0 then 0 else grams / STANDARD_DRINK_GRAMS

/-- `ethanol_grams` from `bloodalc.py` (alias of `total_alcohol_grams`). -/
def ethanol_grams (consumed : List Consumed) (drinks : List Drink) : ℚ :=
  total_alcohol_grams consumed drinks

/-- `hours_since_first_sip` from `bloodalc.py`; `now` is passed
explicitly in place of `datetime.now()`. -/
def hours_since_first_sip (consumed : List Consumed) (now : ℚ) : ℚ :=
  match consumed with
  | [] => 0
  | c :: rest => max 0 (now - rest.foldl (fun a x => min a x.timestamp) c.timestamp)

/-- `widmark_bac_from_grams` from `bloodalc.py`. -/
def widmark_bac_from_grams (grams W_kg r beta60 t_hours : ℚ) : ℚ :=
  if W_kg ≤ 0 ∨ r ≤ 0 then 0
  else max 0 (grams / (W_kg * r * 10) - beta60 * t_hours)

/-- `matthews_miller` from `bloodalc.py`; the division `GC / w_lb` is
unguarded in the source, so a zero-weight profile raises (`none`). -/
def matthews_miller (consumed : List Consumed) (drinks : List Drink) (p : Profile)
    (beta60 t_hours : ℚ) : Option ℚ :=
  let grams := ethanol_grams consumed drinks
  let c_std := standard_drinks_from_grams grams
  let GC : ℚ := if sex_is_female p.sex then 9 else 7.5
  (pydiv GC (p.weight_kg / POUNDS_TO_KG)).map (fun q =>
    max 0 (c_std / 2 * q - beta60 * t_hours))

/-- `forrest` from `bloodalc.py`. Both divisions are guarded in the
source (`H_m > 0`, `tbw_L <= 0` early return), so it is total. -/
def forrest (consumed : List Consumed) (drinks : List Drink) (p : Profile)
    (beta60 t_hours : ℚ) : ℚ :=
  let A := ethanol_grams consumed drinks / 10
  let W := p.weight_kg
  let H_m := p.height_cm / 100
  let BMI := if 0 < H_m then W / H_m ^ 2 else 0
  let rf0 := if sex_is_female p.sex then 1.371 * BMI - 3.467 else 1.340 * BMI - 12.469
  let rf_pct := max 0 (min 60 rf0)
  let lean_mass_kg := W * (1 - rf_pct / 100)
  let tbw_L := 0.73 * max 0 lean_mass_kg
  if tbw_L ≤ 0 then 0
  else max 0 (A / tbw_L - beta60 * t_hours)

/-- `lewis` from `bloodalc.py`. -/
def lewis (consumed : List Consumed) (drinks : List Drink) (p : Profile)
    (beta60 t_hours : ℚ) : ℚ :=
  let r : ℚ := if sex_is_female p.sex then 0.68 else 0.76
  widmark_bac_from_grams (ethanol_grams consumed drinks) p.weight_kg r beta60 t_hours

/-- `nhtsa` from `bloodalc.py`. -/
def nhtsa (consumed : List Consumed) (drinks : List Drink) (p : Profile)
    (beta60 t_hours : ℚ) : ℚ :=
  let r : ℚ := if sex_is_female p.sex then 0.49 else 0.58
  widmark_bac_from_grams (ethanol_grams consumed drinks) p.weight_kg r beta60 t_hours

/-- `estimate_sober_time` from `bloodalc.py`; returns the absolute time
(`now + bac/beta` hours), `none` = Python `None`. -/
def estimate_sober_time (now current_bac beta60 : ℚ) : Option ℚ :=
  if current_bac ≤ 0 ∨ beta60 ≤ 0 then none
  else some (now + current_bac / beta60)

/-- The BAC aggregation in `CalculateFrame.calculate` (lines 624–642 of
`bloodalc.py`): one `t_hours` from first sip, the four models, and the
clamped unweighted mean. -/
def calculate_bac (consumed : List Consumed) (drinks : List Drink) (p : Profile)
    (beta now : ℚ) : Option ℚ :=
  let t_hours := hours_since_first_sip consumed now
  (matthews_miller consumed drinks p beta t_hours).map (fun mm =>
    max 0 ((mm + forrest consumed drinks p beta t_hours
      + lewis consumed drinks p beta t_hours
      + nhtsa consumed drinks p beta t_hours) / 4))

/-- The grams contributed by one consumption event (zero when its drink
name does not resolve), used to state claim C9. -/
def resolved_grams (drinks : List Drink) (c : Consumed) : ℚ :=
  match drink_lookup drinks c.drink_name with
  | none => 0
  | some d => d.volume_ml * (d.percent_abv / 100) * ALCOHOL_DENSITY * (c.quantity : ℚ)

/-- Stated from the spec's words (claim C9): the total is the sum over
the resolvable events only. -/
def spec_total_alcohol_grams (consumed : List Consumed) (drinks : List Drink) : ℚ :=
  ((consumed.filter (fun c => (drink_lookup drinks c.drink_name).isSome)).map
    (fun c => resolved_grams drinks c)).sum

end BloodAlc

/-! ### Shared evaluation helpers -/

theorem frac_absorbed_eq (d : BacTracker.Drink) (now : ℚ)
    (hW : d.absorption_time_min ≠ 0) :
    BacTracker.frac_absorbed d now =
      some (if now - d.time ≤ 0 then 0
        else min 1 ((now - d.time) / d.absorption_time_min)) := by
  by_cases h : now - d.time ≤ 0
  · simp [BacTracker.frac_absorbed, h]
  · simp [BacTracker.frac_absorbed, h, pydiv_of_ne _ hW]

theorem contribution_eq_spec (p : BacTracker.Person) (d : BacTracker.Drink) (now : ℚ)
    (hw : p.weight_kg * 1000 * p.r ≠ 0)
    (hd : now ≤ d.time ∨ d.absorption_time_min ≠ 0) :
    BacTracker.contribution_from_drink p d now =
      some (BacTracker.spec_contribution p d now) := by
  by_cases h : now - d.time ≤ 0
  · have hnt : now ≤ d.time := sub_nonpos.mp h
    simp [BacTracker.contribution_from_drink, BacTracker.frac_absorbed,
      BacTracker.spec_contribution, if_pos h, if_pos hnt, pydiv_of_ne _ hw]
  · have hnt : ¬ now ≤ d.time := fun hc => h (sub_nonpos.mpr hc)
    have hW : d.absorption_time_min ≠ 0 := hd.resolve_left hnt
    simp [BacTracker.contribution_from_drink, BacTracker.frac_absorbed,
      BacTracker.spec_contribution, if_neg h, if_neg hnt, pydiv_of_ne _ hW,
      pydiv_of_ne _ hw]

theorem sum_contributions_eq_spec (p : BacTracker.Person) (drinks : List BacTracker.Drink)
    (now : ℚ) (hw : p.weight_kg * 1000 * p.r ≠ 0)
    (habs : ∀ d ∈ drinks, now ≤ d.time ∨ d.absorption_time_min ≠ 0) :
    BacTracker.sum_contributions p drinks now =
      some ((drinks.map (fun d => BacTracker.spec_contribution p d now)).sum) := by
  induction drinks with
  | nil => simp [BacTracker.sum_contributions]
  | cons d rest ih =>
      have h1 := contribution_eq_spec p d now hw (habs d (List.mem_cons_self d rest))
      have h2 := ih (fun x hx => habs x (List.mem_cons_of_mem d hx))
      simp [BacTracker.sum_contributions, h1, h2]

/-! ### Claim theorems -/

/-- C7: `Person.beta()` equals the base rate (custom override if present,
else the default 0.015) unchanged when age ≤ 30, and equals
`base * (1 - min(0.25, 0.002*(age-30)))` when age > 30. -/
theorem person_beta_age_adjustment (p : BacTracker.Person) :
    (p.age ≤ 30 → p.beta = p.custom_beta.getD BacTracker.DEFAULT_BETA) ∧
    (30 < p.age →
      p.beta = p.custom_beta.getD BacTracker.DEFAULT_BETA *
        (1 - min 0.25 (0.002 * ((p.age : ℚ) - 30)))) := by
  constructor
  · intro h; simp [BacTracker.Person.beta, h]
  · intro h; simp [BacTracker.Person.beta, not_le.mpr h]

/-- Concrete part of the C7 data: the person of the spec's scenario,
age 50 with the default base rate 0.015. -/
def p50 : BacTracker.Person := ⟨70, "male", 50, false, none, none⟩

/-- C7 witness: at age 50 and base 0.015 the adjusted rate is 0.0144. -/
theorem person_beta_age_adjustment_witness :
    (30 : ℤ) < 50 ∧ BacTracker.Person.beta p50 = 0.0144 := by
  refine ⟨by norm_num, ?_⟩
  have h := (person_beta_age_adjustment p50).2 (by norm_num [p50])
  rw [h]
  norm_num [p50, BacTracker.DEFAULT_BETA, min_def]

/-- C10: `Person.r()` returns the custom override whenever it is set;
otherwise lowercased sex "male" gives 0.68, "female" gives 0.55, and any
other string silently falls back to the male default 0.68. -/
theorem person_r_defaults (p : BacTracker.Person) :
    (∀ c, p.custom_r = some c → p.r = c) ∧
    (p.custom_r = none → pyLower p.sex = "male" → p.r = 0.68) ∧
    (p.custom_r = none → pyLower p.sex = "female" → p.r = 0.55) ∧
    (p.custom_r = none → pyLower p.sex ≠ "male" → pyLower p.sex ≠ "female" →
      p.r = 0.68) := by
  refine ⟨?_, ?_, ?_, ?_⟩
  · intro c h; simp [BacTracker.Person.r, h]
  · intro h hm; simp [BacTracker.Person.r, h, hm, BacTracker.SEX_R]
  · intro h hf; simp [BacTracker.Person.r, h, hf, BacTracker.SEX_R]
  · intro h hm hf; simp [BacTracker.Person.r, h, BacTracker.SEX_R, hm, hf]

/-- Concrete part of the C10 data: a person with an empty sex string and
no custom r-factor. -/
def pE : BacTracker.Person := ⟨70, "", 25, false, none, none⟩

/-- C10 witness: the empty sex string silently yields the male default. -/
theorem person_r_defaults_witness :
    pE.custom_r = none ∧ pyLower pE.sex ≠ "male" ∧ pyLower pE.sex ≠ "female" ∧
      BacTracker.Person.r pE = 0.68 :=
  ⟨rfl, by decide, by decide, (person_r_defaults pE).2.2.2 rfl (by decide) (by decide)⟩

/-- C8: with an empty drink log, `current_bac` is 0 and `time_to_sober`
returns no result, for every person and query time. -/
theorem empty_log_bac (p : BacTracker.Person) (now : ℚ) :
    BacTracker.current_bac p [] now = some 0 ∧
    BacTracker.time_to_sober p [] now = some none := by
  constructor
  · simp [BacTracker.current_bac, BacTracker.sum_contributions]
  · simp [BacTracker.time_to_sober, BacTracker.current_bac,
      BacTracker.sum_contributions]

/-- C5: for a positive absorption window, the absorbed fraction is 0 when
`now ≤ t0`, is monotonically non-decreasing in the query time, and is
exactly 1 once the elapsed minutes reach the window. -/
theorem frac_absorbed_monotone_saturates (d : BacTracker.Drink) (now now1 now2 : ℚ)
    (hW : 0 < d.absorption_time_min) :
    (now ≤ d.time → BacTracker.frac_absorbed d now = some 0) ∧
    (now1 ≤ now2 → ∀ f1 f2, BacTracker.frac_absorbed d now1 = some f1 →
      BacTracker.frac_absorbed d now2 = some f2 → f1 ≤ f2) ∧
    (d.absorption_time_min ≤ now - d.time →
      BacTracker.frac_absorbed d now = some 1) := by
  have hW' : d.absorption_time_min ≠ 0 := hW.ne'
  refine ⟨?_, ?_, ?_⟩
  · intro h
    simp [BacTracker.frac_absorbed, sub_nonpos.mpr h]
  · intro h f1 f2 h1 h2
    rw [frac_absorbed_eq d now1 hW'] at h1
    rw [frac_absorbed_eq d now2 hW'] at h2
    simp only [Option.some.injEq] at h1 h2
    subst h1; subst h2
    have hm : now1 - d.time ≤ now2 - d.time := sub_le_sub_right h _
    by_cases h1' : now1 - d.time ≤ 0
    · rw [if_pos h1']
      by_cases h2' : now2 - d.time ≤ 0
      · rw [if_pos h2']
      · rw [if_neg h2']
        have hpos : (0:ℚ) < now2 - d.time := not_le.mp h2'
        exact le_min (by norm_num) (div_nonneg hpos.le hW.le)
    · have h2' : ¬ now2 - d.time ≤ 0 := fun hc => h1' (le_trans hm hc)
      rw [if_neg h1', if_neg h2']
      gcongr
  · intro h
    have h0 : ¬ now - d.time ≤ 0 := not_le.mpr (lt_of_lt_of_le hW h)
    rw [frac_absorbed_eq d now hW', if_neg h0,
      min_eq_left ((one_le_div hW).mpr h)]

/-- Concrete part of the C5 data: a 12 oz 5% drink at time 0 with the
default 40-minute window. -/
def d5 : BacTracker.Drink := ⟨12, 5, 0, 40⟩

/-- C5 witness: the fraction saturates at 1 once 40 minutes have passed. -/
theorem frac_absorbed_witness :
    (0:ℚ) < 40 ∧ (40:ℚ) ≤ 60 - 0 ∧ BacTracker.frac_absorbed d5 60 = some 1 := by
  refine ⟨by norm_num, by norm_num, ?_⟩
  exact (frac_absorbed_monotone_saturates d5 60 0 0 (by norm_num [d5])).2.2
    (by norm_num [d5])

/-- C1: for every person, drink log and query time (with a nonzero
Widmark divisor and nonzero absorption windows, where the source would
otherwise raise `ZeroDivisionError`), `current_bac` equals the clamped
sum, over the logged drinks, of
`max(0, (grams*f/(weight*1000*r))*100 - beta*max(0, hoursSinceMidpoint))`
with `f = 0` for `now ≤ t0` else `min(1, minutesSince/W)` and midpoint
`t0 + f*W/2` minutes; and `add_drink` sets the window to 40 minutes, or
60 when the person has eaten. -/
theorem current_bac_eq_spec (p : BacTracker.Person) (drinks : List BacTracker.Drink)
    (now : ℚ) (hw : p.weight_kg * 1000 * p.r ≠ 0)
    (habs : ∀ d ∈ drinks, now ≤ d.time ∨ d.absorption_time_min ≠ 0) :
    BacTracker.current_bac p drinks now = some (BacTracker.spec_current_bac p drinks now) ∧
    ∀ oz pct t, (BacTracker.add_drink p oz pct t).absorption_time_min =
      if p.eaten then 60 else 40 := by
  constructor
  · rw [BacTracker.current_bac, sum_contributions_eq_spec p drinks now hw habs]
    rw [BacTracker.spec_current_bac]
    rfl
  · intro oz pct t
    simp only [BacTracker.add_drink]
    split <;> norm_num

/-- Concrete part of the C1 data: the spec's scenario person (80 kg male,
age 25, not eaten). -/
def p1 : BacTracker.Person := ⟨80, "male", 25, false, none, none⟩

/-- Concrete part of the C1 data: a 12 oz 5% drink at time 0. -/
def d1 : BacTracker.Drink := ⟨12, 5, 0, 40⟩

/-- C1 witness at a concrete person, drink and query time. -/
theorem current_bac_eq_spec_witness :
    p1.weight_kg * 1000 * BacTracker.Person.r p1 ≠ 0 ∧
    BacTracker.current_bac p1 [d1] 60 =
      some (BacTracker.spec_current_bac p1 [d1] 60) := by
  have hl : pyLower ("male") = "male" := by decide
  have hr : BacTracker.Person.r p1 = 0.68 := by
    simp [BacTracker.Person.r, p1, hl, BacTracker.SEX_R]
  have hw : p1.weight_kg * 1000 * BacTracker.Person.r p1 ≠ 0 := by
    rw [hr]; norm_num [p1]
  have habs : ∀ d ∈ [d1], (60:ℚ) ≤ d.time ∨ d.absorption_time_min ≠ 0 := by
    intro d hd
    rw [List.mem_singleton] at hd
    subst hd
    right
    norm_num [d1]
  exact ⟨hw, (current_bac_eq_spec p1 [d1] 60 hw habs).1⟩

/-- C2: every model in the suite clamps its result: whatever value any of
`widmark_bac_from_grams`, `matthews_miller`, `forrest`, `lewis`, `nhtsa`
returns is ≥ 0. -/
theorem models_nonneg (grams W_kg r beta60 t_hours : ℚ)
    (consumed : List BloodAlc.Consumed) (drinks : List BloodAlc.Drink)
    (p : BloodAlc.Profile) :
    0 ≤ BloodAlc.widmark_bac_from_grams grams W_kg r beta60 t_hours ∧
    (∀ v, BloodAlc.matthews_miller consumed drinks p beta60 t_hours = some v → 0 ≤ v) ∧
    0 ≤ BloodAlc.forrest consumed drinks p beta60 t_hours ∧
    0 ≤ BloodAlc.lewis consumed drinks p beta60 t_hours ∧
    0 ≤ BloodAlc.nhtsa consumed drinks p beta60 t_hours := by
  have hwid : ∀ g w rr b t, 0 ≤ BloodAlc.widmark_bac_from_grams g w rr b t := by
    intro g w rr b t
    unfold BloodAlc.widmark_bac_from_grams
    split
    · exact le_rfl
    · exact le_max_left 0 _
  refine ⟨hwid _ _ _ _ _, ?_, ?_, ?_, ?_⟩
  · intro v h
    simp only [BloodAlc.matthews_miller, Option.map_eq_some'] at h
    obtain ⟨q, _, hv⟩ := h
    rw [← hv]
    exact le_max_left 0 _
  · simp only [BloodAlc.forrest]
    split_ifs <;> first | exact le_rfl | exact le_max_left 0 _
  · exact hwid _ _ _ _ _
  · exact hwid _ _ _ _ _

/-- Concrete part of the C2 data: a 70 kg male profile. -/
def p2 : BloodAlc.Profile := ⟨"w", 25, 170, "male", 70, false⟩

/-- C2 witness: `matthews_miller` returns a value at a concrete input and
that value is non-negative. -/
theorem models_nonneg_witness :
    BloodAlc.matthews_miller [] [] p2 0 0 = some 0 ∧ (0:ℚ) ≤ 0 := by
  have hs : BloodAlc.sex_is_female p2.sex = false := by decide
  have hmm : BloodAlc.matthews_miller [] [] p2 0 0 = some 0 := by
    simp only [BloodAlc.matthews_miller, BloodAlc.ethanol_grams,
      BloodAlc.total_alcohol_grams, BloodAlc.standard_drinks_from_grams,
      List.foldl_nil, hs]
    norm_num [pydiv, p2, BloodAlc.POUNDS_TO_KG, BloodAlc.STANDARD_DRINK_GRAMS]
  exact ⟨hmm, (models_nonneg 0 0 0 0 0 [] [] p2).2.1 0 hmm⟩

/-- The loop of `total_alcohol_grams`, generalized over the accumulator. -/
theorem total_alcohol_grams_foldl (drinks : List BloodAlc.Drink) :
    ∀ (consumed : List BloodAlc.Consumed) (acc : ℚ),
      List.foldl (fun total c =>
        match BloodAlc.drink_lookup drinks c.drink_name with
        | none => total
        | some d => total + d.volume_ml * (d.percent_abv / 100) *
            BloodAlc.ALCOHOL_DENSITY * (c.quantity : ℚ)) acc consumed
      = acc + BloodAlc.spec_total_alcohol_grams consumed drinks := by
  intro consumed
  induction consumed with
  | nil =>
      intro acc
      simp [BloodAlc.spec_total_alcohol_grams]
  | cons c cs ih =>
      intro acc
      simp only [List.foldl_cons]
      cases hl : BloodAlc.drink_lookup drinks c.drink_name with
      | none =>
          rw [ih]
          simp [BloodAlc.spec_total_alcohol_grams, List.filter_cons, hl]
      | some d =>
          rw [ih]
          simp [BloodAlc.spec_total_alcohol_grams, List.filter_cons, hl,
            BloodAlc.resolved_grams]
          ring

/-- C9: `total_alcohol_grams` silently skips every consumption event
whose drink name does not resolve in the catalog (an unresolved event
contributes 0), and equals the sum over the resolvable events of
`volume_ml * (abv/100) * density * quantity`. -/
theorem total_alcohol_grams_skips_unresolved (consumed : List BloodAlc.Consumed)
    (drinks : List BloodAlc.Drink) (c : BloodAlc.Consumed) :
    (BloodAlc.drink_lookup drinks c.drink_name = none →
      BloodAlc.total_alcohol_grams (c :: consumed) drinks =
        BloodAlc.total_alcohol_grams consumed drinks) ∧
    BloodAlc.total_alcohol_grams consumed drinks =
      BloodAlc.spec_total_alcohol_grams consumed drinks := by
  have key : ∀ cs : List BloodAlc.Consumed,
      BloodAlc.total_alcohol_grams cs drinks =
        BloodAlc.spec_total_alcohol_grams cs drinks := by
    intro cs
    have h := total_alcohol_grams_foldl drinks cs 0
    rw [BloodAlc.total_alcohol_grams, h, zero_add]
  constructor
  · intro h
    rw [key, key]
    simp [BloodAlc.spec_total_alcohol_grams, List.filter_cons, h]
  · exact key consumed

/-- Concrete part of the C9 data: an event naming a drink that is not in
the catalog. -/
def c9 : BloodAlc.Consumed := ⟨"ghost", 2, 0⟩

/-- Concrete part of the C9 data: a one-entry catalog. -/
def drinks9 : List BloodAlc.Drink := [⟨"beer", 355, 5⟩]

/-- C9 witness: the unresolved event contributes nothing. -/
theorem total_alcohol_grams_skips_witness :
    BloodAlc.drink_lookup drinks9 c9.drink_name = none ∧
    BloodAlc.total_alcohol_grams [c9] drinks9 =
      BloodAlc.total_alcohol_grams [] drinks9 := by
  have h : BloodAlc.drink_lookup drinks9 c9.drink_name = none := by
    simp [BloodAlc.drink_lookup, drinks9, c9]
  exact ⟨h, (total_alcohol_grams_skips_unresolved [] drinks9 c9).1 h⟩

/-- The running `min` fold stays inside the list it folds over and is a
lower bound of it. -/
theorem foldl_min_is_min (l : List ℚ) :
    ∀ a : ℚ, (List.foldl min a l = a ∨ List.foldl min a l ∈ l) ∧
      List.foldl min a l ≤ a ∧ ∀ x ∈ l, List.foldl min a l ≤ x := by
  induction l with
  | nil =>
      intro a
      exact ⟨Or.inl rfl, le_rfl, by simp⟩
  | cons b t ih =>
      intro a
      obtain ⟨hmem, hlea, hle⟩ := ih (min a b)
      refine ⟨?_, ?_, ?_⟩
      · rcases hmem with h | h
        · rcases min_choice a b with hc | hc
          · exact Or.inl (by rw [List.foldl_cons, h, hc])
          · exact Or.inr (by rw [List.foldl_cons, h, hc]; exact List.mem_cons_self b t)
        · exact Or.inr (List.mem_cons_of_mem b (by rw [List.foldl_cons]; exact h))
      · rw [List.foldl_cons]
        exact le_trans hlea (min_le_left a b)
      · intro x hx
        rw [List.foldl_cons]
        rcases List.mem_cons.mp hx with rfl | hx'
        · exact le_trans hlea (min_le_right a x)
        · exact hle x hx'

/-- C6: in the multi-model suite, the elapsed-hours value is 0 for an
empty consumption list and `max(0, now - earliest timestamp)` otherwise,
and the combined estimate of `CalculateFrame.calculate` is
`max(0, mean)` of the four model outputs, all four evaluated at that one
elapsed-hours value. -/
theorem calculate_mean_of_models (consumed : List BloodAlc.Consumed)
    (drinks : List BloodAlc.Drink) (p : BloodAlc.Profile) (beta now : ℚ) :
    BloodAlc.hours_since_first_sip [] now = 0 ∧
    (∀ m, m ∈ consumed.map (fun c => c.timestamp) →
      (∀ x ∈ consumed.map (fun c => c.timestamp), m ≤ x) →
      BloodAlc.hours_since_first_sip consumed now = max 0 (now - m)) ∧
    (∀ v, BloodAlc.matthews_miller consumed drinks p beta
        (BloodAlc.hours_since_first_sip consumed now) = some v →
      BloodAlc.calculate_bac consumed drinks p beta now =
        some (max 0 ((v
          + BloodAlc.forrest consumed drinks p beta
              (BloodAlc.hours_since_first_sip consumed now)
          + BloodAlc.lewis consumed drinks p beta
              (BloodAlc.hours_since_first_sip consumed now)
          + BloodAlc.nhtsa consumed drinks p beta
              (BloodAlc.hours_since_first_sip consumed now)) / 4))) := by
  refine ⟨rfl, ?_, ?_⟩
  · intro m hmem hlb
    cases consumed with
    | nil => simp at hmem
    | cons c cs =>
        simp only [List.map_cons] at hmem hlb
        have hfold : List.foldl (fun a x => min a x.timestamp) c.timestamp cs =
            List.foldl min c.timestamp (cs.map (fun x => x.timestamp)) := by
          rw [List.foldl_map]
        obtain ⟨hin, hlea, hle⟩ :=
          foldl_min_is_min (cs.map (fun x => x.timestamp)) c.timestamp
        have heq : List.foldl min c.timestamp (cs.map (fun x => x.timestamp)) = m := by
          apply le_antisymm
          · rcases List.mem_cons.mp hmem with rfl | hm'
            · exact hlea
            · exact hle m hm'
          · rcases hin with h | h
            · rw [h]
              exact hlb c.timestamp (List.mem_cons_self _ _)
            · exact hlb _ (List.mem_cons_of_mem _ h)
        rw [BloodAlc.hours_since_first_sip, hfold, heq]
  · intro v hv
    simp only [BloodAlc.calculate_bac]
    rw [hv]
    rfl

/-- Concrete part of the C6 data: a one-event consumption log. -/
def consumed6 : List BloodAlc.Consumed := [⟨"beer", 1, 10⟩]

/-- Concrete part of the C6 data: a 70 kg male profile. -/
def p6 : BloodAlc.Profile := ⟨"x", 25, 170, "male", 70, false⟩

/-- C6 witness at a concrete one-event log and empty catalog. -/
theorem calculate_mean_witness :
    ((10:ℚ) ∈ consumed6.map (fun c => c.timestamp)) ∧
    BloodAlc.hours_since_first_sip consumed6 12 = max 0 (12 - 10) ∧
    BloodAlc.matthews_miller consumed6 [] p6 0
      (BloodAlc.hours_since_first_sip consumed6 12) = some 0 ∧
    BloodAlc.calculate_bac consumed6 [] p6 0 12 =
      some (max 0 ((0
        + BloodAlc.forrest consumed6 [] p6 0 (BloodAlc.hours_since_first_sip consumed6 12)
        + BloodAlc.lewis consumed6 [] p6 0 (BloodAlc.hours_since_first_sip consumed6 12)
        + BloodAlc.nhtsa consumed6 [] p6 0 (BloodAlc.hours_since_first_sip consumed6 12))
        / 4)) := by
  have hmem : (10:ℚ) ∈ consumed6.map (fun c => c.timestamp) := by simp [consumed6]
  have hlb : ∀ x ∈ consumed6.map (fun c => c.timestamp), (10:ℚ) ≤ x := by
    simp [consumed6]
  have hs : BloodAlc.sex_is_female p6.sex = false := by decide
  have hgr : BloodAlc.ethanol_grams consumed6 [] = 0 := by
    simp [BloodAlc.ethanol_grams, BloodAlc.total_alcohol_grams, consumed6,
      BloodAlc.drink_lookup]
  have hmm : BloodAlc.matthews_miller consumed6 [] p6 0
      (BloodAlc.hours_since_first_sip consumed6 12) = some 0 := by
    simp only [BloodAlc.matthews_miller, hgr, hs, BloodAlc.standard_drinks_from_grams]
    norm_num [pydiv, p6, BloodAlc.POUNDS_TO_KG, BloodAlc.STANDARD_DRINK_GRAMS]
  refine ⟨hmem, ?_, hmm, ?_⟩
  · exact (calculate_mean_of_models consumed6 [] p6 0 12).2.1 10 hmem hlb
  · exact (calculate_mean_of_models consumed6 [] p6 0 12).2.2 0 hmm

/-- Concrete part of the C3 data: a zero-weight profile. -/
def p3 : BloodAlc.Profile := ⟨"x", 25, 170, "male", 0, false⟩

/-- C3 counterexample: `matthews_miller` on a zero-weight profile raises
`ZeroDivisionError` (modelled as `none`) instead of returning 0 as the
claim's degenerate-parameter policy requires. -/
theorem matthews_miller_zero_weight_raises :
    BloodAlc.matthews_miller [] [] p3 0.017 0 = none ∧
    BloodAlc.matthews_miller [] [] p3 0.017 0 ≠ some 0 := by
  have h : BloodAlc.matthews_miller [] [] p3 0.017 0 = none := by
    simp only [BloodAlc.matthews_miller]
    rw [show p3.weight_kg / BloodAlc.POUNDS_TO_KG = 0 by norm_num [p3]]
    simp [pydiv_zero_right]
  exact ⟨h, by simp [h]⟩

/-- C3 amended: the guards that do exist — `widmark_bac_from_grams`
returns 0 for non-positive weight or r-factor, and `forrest` returns 0
for non-positive weight; but `matthews_miller` raises a division error
when the weight is exactly 0, and `_contribution_from_drink` raises when
`weight_kg*1000*r` is exactly 0 (whenever its earlier absorption division
does not raise first). -/
theorem degenerate_params (g W_kg r beta60 t_hours : ℚ)
    (consumed : List BloodAlc.Consumed) (drinks : List BloodAlc.Drink)
    (p : BloodAlc.Profile) (q : BacTracker.Person) (d : BacTracker.Drink) (now : ℚ) :
    (W_kg ≤ 0 ∨ r ≤ 0 → BloodAlc.widmark_bac_from_grams g W_kg r beta60 t_hours = 0) ∧
    (p.weight_kg ≤ 0 → BloodAlc.forrest consumed drinks p beta60 t_hours = 0) ∧
    (p.weight_kg = 0 → BloodAlc.matthews_miller consumed drinks p beta60 t_hours = none) ∧
    (q.weight_kg * 1000 * q.r = 0 → (now ≤ d.time ∨ d.absorption_time_min ≠ 0) →
      BacTracker.contribution_from_drink q d now = none) := by
  refine ⟨?_, ?_, ?_, ?_⟩
  · intro h
    simp [BloodAlc.widmark_bac_from_grams, h]
  · intro h
    have key : ∀ rf0 : ℚ, p.weight_kg * (1 - max 0 (min 60 rf0) / 100) ≤ 0 := by
      intro rf0
      have h60 : max 0 (min 60 rf0) ≤ 60 := max_le (by norm_num) (min_le_left _ _)
      have hb : 0 ≤ 1 - max 0 (min 60 rf0) / 100 := by linarith
      nlinarith [mul_nonneg (neg_nonneg.mpr h) hb]
    simp only [BloodAlc.forrest]
    rw [max_eq_left (key _)]
    norm_num
  · intro h
    simp only [BloodAlc.matthews_miller]
    rw [show p.weight_kg / BloodAlc.POUNDS_TO_KG = 0 by rw [h, zero_div]]
    simp [pydiv_zero_right]
  · intro h0 hd
    have hex : ∃ f, BacTracker.frac_absorbed d now = some f := by
      by_cases hc : now - d.time ≤ 0
      · exact ⟨0, by simp [BacTracker.frac_absorbed, hc]⟩
      · have hnt : ¬ now ≤ d.time := fun hcc => hc (sub_nonpos.mpr hcc)
        exact ⟨_, frac_absorbed_eq d now (hd.resolve_left hnt)⟩
    obtain ⟨f, hf⟩ := hex
    simp only [BacTracker.contribution_from_drink, hf, Option.some_bind]
    rw [h0]
    simp [pydiv_zero_right]

/-- Concrete part of the C3 data: a zero-weight person. -/
def pz : BacTracker.Person := ⟨0, "male", 25, false, none, none⟩

/-- Concrete part of the C3 data: a 12 oz 5% drink at time 0. -/
def dz : BacTracker.Drink := ⟨12, 5, 0, 40⟩

/-- C3 witness: all four branches of the amended claim at concrete inputs. -/
theorem degenerate_params_witness :
    BloodAlc.widmark_bac_from_grams 10 0 0.68 0.015 1 = 0 ∧
    BloodAlc.forrest [] [] p3 0.015 1 = 0 ∧
    BloodAlc.matthews_miller [] [] p3 0.015 1 = none ∧
    BacTracker.contribution_from_drink pz dz 60 = none := by
  refine ⟨?_, ?_, ?_, ?_⟩
  · exact (degenerate_params 10 0 0.68 0.015 1 [] [] p3 pz dz 60).1 (Or.inl le_rfl)
  · exact (degenerate_params 10 0 0.68 0.015 1 [] [] p3 pz dz 60).2.1 (by norm_num [p3])
  · exact (degenerate_params 10 0 0.68 0.015 1 [] [] p3 pz dz 60).2.2.1 (by norm_num [p3])
  · exact (degenerate_params 10 0 0.68 0.015 1 [] [] p3 pz dz 60).2.2.2
      (by norm_num [pz]) (Or.inr (by norm_num [dz]))

/-- Concrete part of the C4 data: a person whose custom elimination rate
is exactly 0. -/
def p4 : BacTracker.Person := ⟨70, "male", 25, false, none, some 0⟩

/-- Concrete part of the C4 data: a 12 oz 5% drink at time 0. -/
def d4 : BacTracker.Drink := ⟨12, 5, 0, 40⟩

/-- C4 counterexample: with a positive BAC and `beta = 0`,
`BACSession.time_to_sober` raises `ZeroDivisionError` (modelled as the
outer `none`) instead of returning no value. -/
theorem time_to_sober_zero_beta_raises :
    BacTracker.Person.beta p4 ≤ 0 ∧
    BacTracker.time_to_sober p4 [d4] 60 = none := by
  have hbeta : BacTracker.Person.beta p4 = 0 := by
    norm_num [BacTracker.Person.beta, p4]
  have hl : pyLower ("male") = "male" := by decide
  have hr : BacTracker.Person.r p4 = 0.68 := by
    simp [BacTracker.Person.r, p4, hl, BacTracker.SEX_R]
  have hw : p4.weight_kg * 1000 * BacTracker.Person.r p4 ≠ 0 := by
    rw [hr]; norm_num [p4]
  have habs : ∀ d ∈ [d4], (60:ℚ) ≤ d.time ∨ d.absorption_time_min ≠ 0 := by
    intro d hd
    rw [List.mem_singleton] at hd
    subst hd
    right
    norm_num [d4]
  have hpos : 0 < BacTracker.spec_contribution p4 d4 60 := by
    simp only [BacTracker.spec_contribution]
    rw [hr, hbeta]
    norm_num [p4, d4, BacTracker.Drink.grams, BacTracker.grams_alcohol,
      BacTracker.ML_PER_OUNCE, BacTracker.ALCOHOL_DENSITY_G_PER_ML, min_def, max_def]
  have hbac : BacTracker.current_bac p4 [d4] 60 =
      some (BacTracker.spec_current_bac p4 [d4] 60) := by
    rw [BacTracker.current_bac, sum_contributions_eq_spec p4 [d4] 60 hw habs]
    rfl
  have hscb : 0 < BacTracker.spec_current_bac p4 [d4] 60 := by
    simp only [BacTracker.spec_current_bac, List.map_cons, List.map_nil,
      List.sum_cons, List.sum_nil, add_zero]
    exact lt_max_of_lt_right hpos
  refine ⟨le_of_eq hbeta, ?_⟩
  rw [BacTracker.time_to_sober, hbac]
  simp [not_le.mpr hscb, hbeta, pydiv_zero_right]

/-- C4 amended: `estimate_sober_time` returns `now + bac/beta` when both
are positive and no value when either is ≤ 0; `BACSession.time_to_sober`
returns no value when the BAC is ≤ 0 and `bac/beta` hours when the BAC is
positive and beta is nonzero, but raises a division error (instead of
returning no value) when beta is exactly 0 with a positive BAC. -/
theorem sober_time_behavior (p : BacTracker.Person) (drinks : List BacTracker.Drink)
    (now bac nw cb b : ℚ) :
    (0 < cb → 0 < b → BloodAlc.estimate_sober_time nw cb b = some (nw + cb / b)) ∧
    (cb ≤ 0 ∨ b ≤ 0 → BloodAlc.estimate_sober_time nw cb b = none) ∧
    (BacTracker.current_bac p drinks now = some bac → bac ≤ 0 →
      BacTracker.time_to_sober p drinks now = some none) ∧
    (BacTracker.current_bac p drinks now = some bac → 0 < bac → p.beta ≠ 0 →
      BacTracker.time_to_sober p drinks now = some (some (bac / p.beta))) ∧
    (BacTracker.current_bac p drinks now = some bac → 0 < bac → p.beta = 0 →
      BacTracker.time_to_sober p drinks now = none) := by
  refine ⟨?_, ?_, ?_, ?_, ?_⟩
  · intro h1 h2
    simp [BloodAlc.estimate_sober_time, not_le.mpr h1, not_le.mpr h2]
  · intro h
    simp [BloodAlc.estimate_sober_time, h]
  · intro h hle
    rw [BacTracker.time_to_sober, h]
    simp [hle]
  · intro h hpos hb
    rw [BacTracker.time_to_sober, h]
    simp [not_le.mpr hpos, pydiv_of_ne _ hb]
  · intro h hpos hb
    rw [BacTracker.time_to_sober, h]
    simp [not_le.mpr hpos, hb, pydiv_zero_right]

/-- C4 witness at the spec's scenario: BAC 0.08 and beta 0.016 give 5.0
hours. -/
theorem sober_time_behavior_witness :
    (0:ℚ) < 0.08 ∧ (0:ℚ) < 0.016 ∧
    BloodAlc.estimate_sober_time 0 0.08 0.016 = some 5 := by
  refine ⟨by norm_num, by norm_num, ?_⟩
  have h := (sober_time_behavior ⟨70, "male", 25, false, none, none⟩ [] 0 0 0
    0.08 0.016).1 (by norm_num) (by norm_num)
  rw [h]
  norm_num
